import Mathlib

/-!
Verification of the sanitize-decision workflow of the prompt-firewall example
(`firewall_util.py` and `app.py`).

The Python code calls two external SDKs (a scanning client and a model
completion client).  We embed the decision logic shallowly:

* the remote scan call is a parameter: the scanning client, when active,
  is a function from the call's arguments to the payload dictionary it
  returned (`Option` models the module-level `_firewall_client` being
  `None` or a live client handle — a constructed `LLMDefenseClient`
  object is truthy in Python);
* the returned dictionary is a `Payload` record: `hasError` models the
  membership test `"error" in dict`, the remaining fields model
  `dict.get(key)` (which yields `None` when absent, hence `Option`);
* `STRICT_MODE` is the module-level configuration flag, passed as a
  parameter so the claims quantifying over strict/non-strict mode can be
  stated;
* the Python `ScanResult` NamedTuple is the `ScanResult` structure; the
  first two fields can receive Python `None` (from `dict.get`), hence
  `Option String`.
-/

namespace PromptFirewall

/-- Module constant `STATIC_RESPONSE` of firewall_util.py. -/
def STATIC_RESPONSE : String :=
  "Your prompt violated our safety policies. Please rephrase."

/-- Module constant `ENABLE_ACCUKNOX_FIREWALL` of firewall_util.py. -/
def ENABLE_ACCUKNOX_FIREWALL : Bool := true

/-- Module constant `STRICT_MODE` of firewall_util.py (its default value;
the scan functions below take the flag as a parameter). -/
def STRICT_MODE : Bool := false

/-- The `ScanResult` NamedTuple of firewall_util.py.  The Python fields are
annotated `str` but several code paths store `None` (the result of
`dict.get` on a missing key, or the literal `None` for the session id), so
the first two fields are `Option String`.  `fallback_response` is always a
string literal in the code. -/
structure ScanResult where
  sanitized_content : Option String
  session_id : Option String
  block : Bool
  fallback_response : String
deriving DecidableEq, Repr

/-- The dictionary returned by the remote `scan_prompt` / `scan_response`
SDK call, as firewall_util.py consumes it: `hasError` is the membership
test `"error" in dict`; the other fields are the values of
`dict.get("query_status")`, `dict.get("sanitized_content")` and
`dict.get("session_id")` (`none` when the key is absent or its value is
`None`). -/
structure Payload where
  hasError : Bool
  query_status : Option String
  sanitized_content : Option String
  session_id : Option String
deriving DecidableEq, Repr

instance : Inhabited Payload :=
  ⟨Payload.mk false none none none⟩

/-- An active scanning client, for prompt scanning: the behaviour of
`_firewall_client.scan_prompt(content=prompt)`. -/
abbrev PromptScanner := String → Payload

/-- An active scanning client, for response scanning: the behaviour of
`_firewall_client.scan_response(content=response, prompt=prompt,
session_id=session_id)` (arguments in that order). -/
abbrev ResponseScanner := String → String → Option String → Payload

/-- `get_sanitized_prompt` of firewall_util.py (lines 93-146).
`client` is the module-level `_firewall_client`; `strictMode` the
module-level `STRICT_MODE`. -/
def get_sanitized_prompt (strictMode : Bool) (client : Option PromptScanner)
    (prompt : String) : ScanResult :=
  match client with
  | some scanner =>
    let d := scanner prompt
    if d.hasError then
      if strictMode then
        ScanResult.mk (some prompt) none true ""
      else
        ScanResult.mk (some prompt) none false ""
    else if d.query_status = some "BLOCK" then
      ScanResult.mk d.sanitized_content d.session_id true STATIC_RESPONSE
    else
      ScanResult.mk d.sanitized_content d.session_id false ""
  | none =>
    if strictMode then
      ScanResult.mk (some prompt) none true ""
    else
      ScanResult.mk (some prompt) none false ""

/-- `get_sanitized_response` of firewall_util.py (lines 149-209).
Note that every branch places the `session_id` *argument* into the result;
the payload's own `session_id` field is never used by this function. -/
def get_sanitized_response (strictMode : Bool) (client : Option ResponseScanner)
    (prompt response : String) (session_id : Option String) : ScanResult :=
  match client with
  | some scanner =>
    let d := scanner response prompt session_id
    if d.hasError then
      if strictMode then
        ScanResult.mk (some response) session_id true ""
      else
        ScanResult.mk (some response) session_id false ""
    else if d.query_status = some "BLOCK" then
      ScanResult.mk d.sanitized_content session_id true STATIC_RESPONSE
    else
      ScanResult.mk d.sanitized_content session_id false ""
  | none =>
    if strictMode then
      ScanResult.mk (some response) session_id true ""
    else
      ScanResult.mk (some response) session_id false ""

/-- The `LLMDefenseClient` handle as firewall_util.py constructs it:
`LLMDefenseClient(llm_defense_api_key=..., user_info=...)`. -/
structure LLMDefenseClient where
  llm_defense_api_key : String
  user_info : String
deriving DecidableEq, Repr

/-- Python truthiness of `os.getenv("ACCUKNOX_API_KEY")`: truthy iff the
variable is set to a non-empty string. -/
def envTruthy : Option String → Bool
  | some s => s != ""
  | none => false

/-- `initialize_firewall_client` of firewall_util.py (lines 51-90).
`envKey` is `os.getenv("ACCUKNOX_API_KEY")`; `prev` is the previous value
of the module-level `_firewall_client` (the function overwrites it without
consulting it).  `Except.error ()` models the `RuntimeError` raised under
strict mode; `Except.ok c` models a normal return leaving
`_firewall_client = c`. -/
def initialize_firewall_client (enable strictMode : Bool)
    (envKey : Option String) (user : String)
    (prev : Option LLMDefenseClient) : Except Unit (Option LLMDefenseClient) :=
  if !enable then
    Except.ok none
  else
    match envKey with
    | some k =>
      if k != "" then
        Except.ok (some (LLMDefenseClient.mk k user))
      else if strictMode then Except.error () else Except.ok none
    | none =>
      if strictMode then Except.error () else Except.ok none

/-- True iff the modelled call raised (the `RuntimeError` path). -/
def raisesError : Except Unit (Option LLMDefenseClient) → Bool
  | Except.error _ => true
  | Except.ok _ => false

/-!  The top-level script app.py.  It indexes the payload dictionaries
directly (`d['query_status']`, `d['sanitized_content']`, `d['session_id']`,
`d['risk_score']`), assuming those keys are present, so its payload type
has plain `String` fields. -/

/-- The payload dictionary as app.py consumes it (direct indexing of the
keys `query_status`, `sanitized_content`, `session_id`, `risk_score`). -/
structure AppPayload where
  query_status : String
  sanitized_content : String
  session_id : String
  risk_score : String
deriving DecidableEq, Repr

instance : Inhabited AppPayload :=
  ⟨AppPayload.mk "" "" "" ""⟩

/-- Observable outcome of one run of the module-level code of app.py:
whether `sys.exit()` was reached inside `prompt_sanitization`, whether the
completion service was invoked, whether `scan_response` was invoked, and
the final text printed under CONTENT (`none` when the script exited). -/
structure AppRun where
  exited : Bool
  completionCalled : Bool
  responseScanCalled : Bool
  finalText : Option String
deriving DecidableEq, Repr

/-- `prompt_sanitization` of app.py (lines 17-34).  `scanPrompt` is the
behaviour of `accuknox_client.scan_prompt(content=prompt)` (lazy client
construction is abstracted into this function).  `none` models
`sys.exit()`; `some (sanitized, sessionId)` the normal return.  When the
firewall is disabled the function returns `(prompt, None)` without
scanning. -/
def prompt_sanitization (accuknox_enable : Bool)
    (scanPrompt : String → AppPayload) (prompt : String) :
    Option (String × Option String) :=
  if !accuknox_enable then
    some (prompt, none)
  else
    let d := scanPrompt prompt
    if d.query_status = "BLOCK" then
      none
    else
      some (d.sanitized_content, some d.session_id)

/-- The module-level flow of app.py (lines 37-64): sanitize the prompt
(exiting on BLOCK before the completion service is ever called), invoke
the completion on the sanitized prompt, then scan the model response only
when a session id was produced; otherwise return the model text unscanned.
`complete` is the model-completion call (its `choices[0].message.content`
text); `scanResponse` is `accuknox_client.scan_response(content=...,
prompt=..., session_id=...)` in that argument order. -/
def app_main (accuknox_enable : Bool) (scanPrompt : String → AppPayload)
    (complete : String → String)
    (scanResponse : String → String → String → AppPayload)
    (prompt : String) : AppRun :=
  match prompt_sanitization accuknox_enable scanPrompt prompt with
  | none => AppRun.mk true false false none
  | some (sanitized_prompt, session_id) =>
    let modelText := complete sanitized_prompt
    match session_id with
    | some s =>
      AppRun.mk false true true
        (some (scanResponse modelText sanitized_prompt s).sanitized_content)
    | none =>
      AppRun.mk false true false (some modelText)

/-! Theorems. -/

/-- The static refusal text is not the empty string. -/
theorem STATIC_RESPONSE_ne_empty : STATIC_RESPONSE ≠ "" := by
  decide

/-- C1: for every remote scan payload without an error, with an active
client, `get_sanitized_prompt` maps status BLOCK to a blocking result with
content and session id from the payload and the static refusal text as
fallback; any other status gives a non-blocking result with content and
session id from the payload and an empty fallback. -/
theorem c1_prompt_status_mapping (strictMode : Bool) (scanner : PromptScanner)
    (prompt : String) (h : (scanner prompt).hasError = false) :
    ((scanner prompt).query_status = some "BLOCK" →
      get_sanitized_prompt strictMode (some scanner) prompt =
        ScanResult.mk (scanner prompt).sanitized_content
          (scanner prompt).session_id true STATIC_RESPONSE) ∧
    ((scanner prompt).query_status ≠ some "BLOCK" →
      get_sanitized_prompt strictMode (some scanner) prompt =
        ScanResult.mk (scanner prompt).sanitized_content
          (scanner prompt).session_id false "") := by
  refine ⟨fun hq => ?_, fun hq => ?_⟩ <;>
    simp [get_sanitized_prompt, h, hq]

/-- C1 witness: the spec scenario `{query_status: BLOCK, sanitized_content:
"", session_id: "s1"}` yields `ScanResult("", "s1", true, STATIC_RESPONSE)`. -/
theorem c1_prompt_status_mapping_witness :
    get_sanitized_prompt false
      (some fun _ => Payload.mk false (some "BLOCK") (some "") (some "s1")) "hi" =
      ScanResult.mk (some "") (some "s1") true STATIC_RESPONSE :=
  (c1_prompt_status_mapping false
    (fun _ => Payload.mk false (some "BLOCK") (some "") (some "s1")) "hi" rfl).1 rfl

/-- C2 counterexample: with an active client whose scan reports an error,
under strict mode, the sanitized content of the blocking result is the
original prompt, not the empty string claimed. -/
theorem c2_counterexample :
    ¬ ((get_sanitized_prompt true
        (some fun _ => Payload.mk true none none none) "hello").sanitized_content
        = some "") := by
  decide

/-- C2 amended: on the transport/parse-error branch, under strict mode both
functions block and under non-strict mode both pass, in each case echoing
the original input as sanitized content; `get_sanitized_prompt` drops the
session id while `get_sanitized_response` echoes its session id argument. -/
theorem c2_amended_error_paths (strictMode : Bool) (scannerP : PromptScanner)
    (scannerR : ResponseScanner) (prompt prompt2 response : String)
    (sid : Option String)
    (hp : (scannerP prompt).hasError = true)
    (hr : (scannerR response prompt2 sid).hasError = true) :
    get_sanitized_prompt strictMode (some scannerP) prompt =
      ScanResult.mk (some prompt) none strictMode "" ∧
    get_sanitized_response strictMode (some scannerR) prompt2 response sid =
      ScanResult.mk (some response) sid strictMode "" := by
  cases strictMode <;>
    simp [get_sanitized_prompt, get_sanitized_response, hp, hr]

/-- C2 witness: strict mode, remote error on "hello" → the blocking result
echoes "hello". -/
theorem c2_amended_error_paths_witness :
    get_sanitized_prompt true
      (some fun _ => Payload.mk true none none none) "hello" =
      ScanResult.mk (some "hello") none true "" :=
  (c2_amended_error_paths true (fun _ => Payload.mk true none none none)
    (fun _ _ _ => Payload.mk true none none none) "hello" "p" "r" none rfl rfl).1

/-- C3 counterexample: strict mode with an absent client produces a block
whose fallback_response is empty, not the static refusal text. -/
theorem c3_counterexample :
    (get_sanitized_prompt true none "x").block = true ∧
    (get_sanitized_prompt true none "x").fallback_response ≠ STATIC_RESPONSE := by
  decide

/-- C3 amended: the fallback_response equals STATIC_RESPONSE on the
remote-status-BLOCK block path, but on the strict-mode transport-error and
strict-mode absent-client block paths the fallback_response is empty. -/
theorem c3_amended_block_fallbacks (strictMode : Bool) (scannerP : PromptScanner)
    (scannerR : ResponseScanner) (prompt prompt2 response : String)
    (sid : Option String) :
    ((scannerP prompt).hasError = false →
      (scannerP prompt).query_status = some "BLOCK" →
      (get_sanitized_prompt strictMode (some scannerP) prompt).fallback_response
        = STATIC_RESPONSE) ∧
    ((scannerR response prompt2 sid).hasError = false →
      (scannerR response prompt2 sid).query_status = some "BLOCK" →
      (get_sanitized_response strictMode (some scannerR) prompt2 response
        sid).fallback_response = STATIC_RESPONSE) ∧
    ((scannerP prompt).hasError = true →
      (get_sanitized_prompt true (some scannerP) prompt).block = true ∧
      (get_sanitized_prompt true (some scannerP) prompt).fallback_response = "") ∧
    ((scannerR response prompt2 sid).hasError = true →
      (get_sanitized_response true (some scannerR) prompt2 response sid).block
        = true ∧
      (get_sanitized_response true (some scannerR) prompt2 response
        sid).fallback_response = "") ∧
    ((get_sanitized_prompt true none prompt).block = true ∧
      (get_sanitized_prompt true none prompt).fallback_response = "") ∧
    ((get_sanitized_response true none prompt2 response sid).block = true ∧
      (get_sanitized_response true none prompt2 response sid).fallback_response
        = "") := by
  refine ⟨fun he hq => ?_, fun he hq => ?_, fun he => ?_, fun he => ?_, ?_, ?_⟩ <;>
    simp [get_sanitized_prompt, get_sanitized_response, *]

/-- C3 witness: a BLOCK payload yields the static refusal text. -/
theorem c3_amended_block_fallbacks_witness :
    (get_sanitized_prompt false
      (some fun _ => Payload.mk false (some "BLOCK") (some "") (some "s1"))
      "p").fallback_response = STATIC_RESPONSE :=
  (c3_amended_block_fallbacks false
    (fun _ => Payload.mk false (some "BLOCK") (some "") (some "s1"))
    (fun _ _ _ => Payload.mk false (some "BLOCK") (some "") (some "s1"))
    "p" "q" "r" none).1 rfl rfl

/-- C4: client absent, strict mode off: `get_sanitized_prompt` returns the
input unchanged, no session id, block=false, empty fallback; and
`get_sanitized_response` (invoked with its default session id, `None`)
behaves the same on its response text. -/
theorem c4_absent_client_nonstrict (prompt prompt2 response : String) :
    get_sanitized_prompt false none prompt =
      ScanResult.mk (some prompt) none false "" ∧
    get_sanitized_response false none prompt2 response none =
      ScanResult.mk (some response) none false "" :=
  ⟨rfl, rfl⟩

/-- C5: client absent, strict mode on: both functions always block, and
(with the default session id, `None`, for `get_sanitized_response`) the
result is `ScanResult(input, None, true, "")`. -/
theorem c5_absent_client_strict (prompt prompt2 response : String)
    (sid : Option String) :
    get_sanitized_prompt true none prompt =
      ScanResult.mk (some prompt) none true "" ∧
    (get_sanitized_response true none prompt2 response sid).block = true ∧
    get_sanitized_response true none prompt2 response none =
      ScanResult.mk (some response) none true "" := by
  refine ⟨rfl, ?_, rfl⟩
  rfl

/-- C6: `initialize_firewall_client` raises exactly when the firewall is
enabled, strict mode is on, and the credential is missing (falsy); it
returns with no client when the firewall is disabled or the credential is
missing (without strict mode), and with a freshly constructed client when
enabled with a credential, regardless of any previous handle. -/
theorem c6_initialize_firewall_client (enable strictMode : Bool)
    (envKey : Option String) (user : String) (prev : Option LLMDefenseClient) :
    (raisesError (initialize_firewall_client enable strictMode envKey user prev)
        = true ↔
      enable = true ∧ strictMode = true ∧ envTruthy envKey = false) ∧
    (enable = false →
      initialize_firewall_client enable strictMode envKey user prev =
        Except.ok none) ∧
    (envTruthy envKey = false → (enable = false ∨ strictMode = false) →
      initialize_firewall_client enable strictMode envKey user prev =
        Except.ok none) ∧
    (∀ k, envKey = some k → envTruthy envKey = true → enable = true →
      initialize_firewall_client enable strictMode envKey user prev =
        Except.ok (some (LLMDefenseClient.mk k user))) := by
  rcases envKey with _ | k
  · cases enable <;> cases strictMode <;>
      simp [initialize_firewall_client, raisesError, envTruthy]
  · cases enable <;> cases strictMode <;> by_cases hk : k = "" <;>
      simp [initialize_firewall_client, raisesError, envTruthy, hk]

/-- C6 witness: enabled, strict, missing key → raises. -/
theorem c6_initialize_firewall_client_witness :
    raisesError (initialize_firewall_client true true none "u" none) = true :=
  (c6_initialize_firewall_client true true none "u" none).1.mpr ⟨rfl, rfl, rfl⟩

/-- C7 counterexample: on a successful scan, `get_sanitized_response`
returns its session_id argument ("s1"), not the payload's session id
("s2") — the claimed contract parity with `get_sanitized_prompt` fails. -/
theorem c7_counterexample :
    ¬ ((get_sanitized_response false
        (some fun _ _ _ => Payload.mk false (some "PASS") (some "ok") (some "s2"))
        "p" "r" (some "s1")).session_id = some "s2") := by
  decide

/-- C7 amended: `get_sanitized_response` returns its session_id argument
unchanged on every path (the payload's session id is never consulted); in
particular the session id is absent when scanning was skipped only when no
session id was supplied. -/
theorem c7_amended_session_id_echo (strictMode : Bool)
    (client : Option ResponseScanner) (prompt response : String)
    (sid : Option String) :
    (get_sanitized_response strictMode client prompt response sid).session_id
      = sid := by
  rcases client with _ | scanner
  · cases strictMode <;> rfl
  · unfold get_sanitized_response
    dsimp only
    split
    · split <;> rfl
    · split <;> rfl

/-- C8: an `error` key takes precedence over any `query_status`: with an
error present, non-strict mode never blocks and no strict setting ever
produces the static refusal text. -/
theorem c8_error_key_precedence (scannerP : PromptScanner)
    (scannerR : ResponseScanner) (prompt prompt2 response : String)
    (sid : Option String)
    (hp : (scannerP prompt).hasError = true)
    (hr : (scannerR response prompt2 sid).hasError = true) :
    (get_sanitized_prompt false (some scannerP) prompt).block = false ∧
    (get_sanitized_response false (some scannerR) prompt2 response sid).block
      = false ∧
    (∀ strictMode, (get_sanitized_prompt strictMode (some scannerP)
        prompt).fallback_response ≠ STATIC_RESPONSE) ∧
    (∀ strictMode, (get_sanitized_response strictMode (some scannerR) prompt2
        response sid).fallback_response ≠ STATIC_RESPONSE) := by
  refine ⟨?_, ?_, fun s => ?_, fun s => ?_⟩
  · simp [get_sanitized_prompt, hp]
  · simp [get_sanitized_response, hr]
  · cases s <;>
      simp [get_sanitized_prompt, hp, Ne.symm STATIC_RESPONSE_ne_empty]
  · cases s <;>
      simp [get_sanitized_response, hr, Ne.symm STATIC_RESPONSE_ne_empty]

/-- C8 witness: a payload carrying both an error key and query_status BLOCK
yields block=false under non-strict mode. -/
theorem c8_error_key_precedence_witness :
    (get_sanitized_prompt false
      (some fun _ => Payload.mk true (some "BLOCK") (some "x") (some "s"))
      "p").block = false :=
  (c8_error_key_precedence
    (fun _ => Payload.mk true (some "BLOCK") (some "x") (some "s"))
    (fun _ _ _ => Payload.mk true (some "BLOCK") (some "x") (some "s"))
    "p" "q" "r" none rfl rfl).1

/-- Helper: the fallback of `get_sanitized_prompt` is empty or the static
refusal text, and equals the static refusal text exactly on a successful
scan with status BLOCK. -/
theorem prompt_fallback_cases (strictMode : Bool)
    (client : Option PromptScanner) (prompt : String) :
    ((get_sanitized_prompt strictMode client prompt).fallback_response = "" ∨
      (get_sanitized_prompt strictMode client prompt).fallback_response
        = STATIC_RESPONSE) ∧
    ((get_sanitized_prompt strictMode client prompt).fallback_response
        = STATIC_RESPONSE ↔
      ∃ scanner, client = some scanner ∧ (scanner prompt).hasError = false ∧
        (scanner prompt).query_status = some "BLOCK") := by
  rcases client with _ | scanner
  · cases strictMode <;>
      simp [get_sanitized_prompt, Ne.symm STATIC_RESPONSE_ne_empty]
  · by_cases he : (scanner prompt).hasError = true <;>
      by_cases hq : (scanner prompt).query_status = some "BLOCK" <;>
        cases strictMode <;>
          simp [get_sanitized_prompt, he, hq,
            Ne.symm STATIC_RESPONSE_ne_empty]

/-- Helper: the fallback of `get_sanitized_response` is empty or the static
refusal text, and equals the static refusal text exactly on a successful
scan with status BLOCK. -/
theorem response_fallback_cases (strictMode : Bool)
    (client : Option ResponseScanner) (prompt response : String)
    (sid : Option String) :
    ((get_sanitized_response strictMode client prompt response
        sid).fallback_response = "" ∨
      (get_sanitized_response strictMode client prompt response
        sid).fallback_response = STATIC_RESPONSE) ∧
    ((get_sanitized_response strictMode client prompt response
        sid).fallback_response = STATIC_RESPONSE ↔
      ∃ scanner, client = some scanner ∧
        (scanner response prompt sid).hasError = false ∧
        (scanner response prompt sid).query_status = some "BLOCK") := by
  rcases client with _ | scanner
  · cases strictMode <;>
      simp [get_sanitized_response, Ne.symm STATIC_RESPONSE_ne_empty]
  · by_cases he : (scanner response prompt sid).hasError = true <;>
      by_cases hq : (scanner response prompt sid).query_status = some "BLOCK" <;>
        cases strictMode <;>
          simp [get_sanitized_response, he, hq,
            Ne.symm STATIC_RESPONSE_ne_empty]

/-- C9: for both scan functions the fallback_response is always either the
empty string or the static refusal text STATIC_RESPONSE (remote-supplied
text never appears there), and it equals STATIC_RESPONSE exactly when the
remote scan succeeded with status BLOCK. -/
theorem c9_fallback_static_iff_block (strictMode : Bool)
    (clientP : Option PromptScanner) (clientR : Option ResponseScanner)
    (prompt prompt2 response : String) (sid : Option String) :
    ((get_sanitized_prompt strictMode clientP prompt).fallback_response = "" ∨
      (get_sanitized_prompt strictMode clientP prompt).fallback_response
        = STATIC_RESPONSE) ∧
    ((get_sanitized_prompt strictMode clientP prompt).fallback_response
        = STATIC_RESPONSE ↔
      ∃ scanner, clientP = some scanner ∧ (scanner prompt).hasError = false ∧
        (scanner prompt).query_status = some "BLOCK") ∧
    ((get_sanitized_response strictMode clientR prompt2 response
        sid).fallback_response = "" ∨
      (get_sanitized_response strictMode clientR prompt2 response
        sid).fallback_response = STATIC_RESPONSE) ∧
    ((get_sanitized_response strictMode clientR prompt2 response
        sid).fallback_response = STATIC_RESPONSE ↔
      ∃ scanner, clientR = some scanner ∧
        (scanner response prompt2 sid).hasError = false ∧
        (scanner response prompt2 sid).query_status = some "BLOCK") :=
  ⟨(prompt_fallback_cases strictMode clientP prompt).1,
   (prompt_fallback_cases strictMode clientP prompt).2,
   (response_fallback_cases strictMode clientR prompt2 response sid).1,
   (response_fallback_cases strictMode clientR prompt2 response sid).2⟩

/-- C9 witness: a successful BLOCK scan yields STATIC_RESPONSE as fallback. -/
theorem c9_fallback_static_iff_block_witness :
    (get_sanitized_prompt false
      (some fun _ => Payload.mk false (some "BLOCK") (some "") (some "s1"))
      "p").fallback_response = STATIC_RESPONSE :=
  (c9_fallback_static_iff_block false
    (some fun _ => Payload.mk false (some "BLOCK") (some "") (some "s1"))
    none "p" "q" "r" none).2.1.mpr
    ⟨fun _ => Payload.mk false (some "BLOCK") (some "") (some "s1"),
      rfl, rfl, rfl⟩

/-- C10: in app.py, the response is scanned only when the prompt scan
produced a session id; a `None` session id occurs exactly when the
firewall is disabled, in which case the prompt is forwarded verbatim and
the model text returned unscanned; and a BLOCK prompt status exits the
script before the completion service is ever called. -/
theorem c10_app_response_scan_gating (accuknox_enable : Bool)
    (scanPrompt : String → AppPayload) (complete : String → String)
    (scanResponse : String → String → String → AppPayload) (prompt : String) :
    (∀ sp, prompt_sanitization accuknox_enable scanPrompt prompt
        = some (sp, none) →
      app_main accuknox_enable scanPrompt complete scanResponse prompt =
        AppRun.mk false true false (some (complete sp))) ∧
    (∀ sp sid, prompt_sanitization accuknox_enable scanPrompt prompt
        = some (sp, sid) →
      (sid = none ↔ accuknox_enable = false)) ∧
    (accuknox_enable = false →
      prompt_sanitization accuknox_enable scanPrompt prompt
        = some (prompt, none) ∧
      app_main accuknox_enable scanPrompt complete scanResponse prompt =
        AppRun.mk false true false (some (complete prompt))) ∧
    (accuknox_enable = true → (scanPrompt prompt).query_status = "BLOCK" →
      app_main accuknox_enable scanPrompt complete scanResponse prompt =
        AppRun.mk true false false none) ∧
    ((app_main accuknox_enable scanPrompt complete scanResponse
        prompt).responseScanCalled = true →
      ∃ sp s, prompt_sanitization accuknox_enable scanPrompt prompt
        = some (sp, some s)) := by
  by_cases hb : (scanPrompt prompt).query_status = "BLOCK" <;>
    cases accuknox_enable <;>
      simp [app_main, prompt_sanitization, hb]

/-- C10 witness: enabled firewall with a BLOCK prompt status exits with the
completion service never called. -/
theorem c10_app_response_scan_gating_witness :
    app_main true (fun _ => AppPayload.mk "BLOCK" "" "" "")
      (fun s => s) (fun _ _ _ => AppPayload.mk "PASS" "" "" "") "p" =
      AppRun.mk true false false none :=
  (c10_app_response_scan_gating true (fun _ => AppPayload.mk "BLOCK" "" "" "")
    (fun s => s) (fun _ _ _ => AppPayload.mk "PASS" "" "" "")
    "p").2.2.2.1 rfl rfl

end PromptFirewall
